import Mathlib

/-!
# Verification of `backend-in-a-box`

A shallow embedding, in Lean 4, of the parts of the repository
`SarabdeepSBilkhu/backend-in-a-box` that the specification's claims are
about:

* `src/app/core/hooks.py` — the `HookRegistry` (registration map,
  `get_hooks`, `execute_hooks`) and the lifecycle-hook semantics;
* `src/generator/validator.py` — `SchemaValidator.validate_all` and its
  sub-checks;
* `src/generator/model_gen.py` — `ModelGenerator.generate_model`;
* `src/generator/api_gen.py` — `APIGenerator._generate_pydantic_schema`,
  `APIGenerator.generate_router`, and the behaviour of the delete handler
  that `generate_router` emits.

Python runtime values that can flow through the hook system are modelled
by the inductive type `PyVal`; Python dictionaries by insertion-ordered
association lists; raised exceptions by `Except`.
-/

namespace BackendInABox

/-- Python runtime values, as far as the hook system and the generators
inspect them: `None`, booleans, integers, strings, lists and dicts.
A dict is an insertion-ordered association list with string keys. -/
inductive PyVal where
  | none : PyVal
  | bool : Bool → PyVal
  | int : Int → PyVal
  | str : String → PyVal
  | list : List PyVal → PyVal
  | dict : List (String × PyVal) → PyVal

/-- A Python keyword-argument context (`**context` in
`HookRegistry.execute_hooks`): an insertion-ordered dict. -/
abbrev Ctx := List (String × PyVal)

/-- `d.get(k)` on a Python dict: the value at the first (unique, for a real
dict) occurrence of key `k`, or `none`. -/
def dictGet {α : Type} (d : List (String × α)) (k : String) : Option α :=
  match d with
  | [] => Option.none
  | (k2, v) :: t => if k2 == k then Option.some v else dictGet t k

/-- Setting key `k` of a Python dict via a function of its previous value:
an existing key keeps its insertion position and gets value
`f (old value)`; a fresh key is appended at the end with value `f dflt`.
This models both plain assignment (constant `f`) and
`defaultdict.__getitem__` followed by mutation (`dflt` the default). -/
def dictSetWith {α : Type} (d : List (String × α)) (k : String) (f : α → α)
    (dflt : α) : List (String × α) :=
  if d.any (fun p => p.1 == k) then
    d.map (fun p => if p.1 == k then (p.1, f p.2) else p)
  else d ++ [(k, f dflt)]

/-- Plain dict assignment `d[k] = v`. -/
def dictSet {α : Type} (d : List (String × α)) (k : String) (v : α) :
    List (String × α) :=
  dictSetWith d k (fun _ => v) v

/-- Python `context.update(result)`: every key of `upd` is assigned into
`d`, in `upd`'s order. -/
def dictUpdate (d upd : Ctx) : Ctx :=
  upd.foldl (fun acc p => dictSet acc p.1 p.2) d

/-- A registered hook callable.  `id` is an identifier used only to
observe invocation order in traces; `run` is the callable itself: it
receives the keyword context and either returns a `PyVal`
(`Except.ok`) or raises an exception (`Except.error`, the payload being
the exception object). -/
structure Hook where
  id : Nat
  run : Ctx → Except PyVal PyVal

/-- `HookRegistry.execute_hooks` (src/app/core/hooks.py, lines 59–91),
instrumented with a trace.  The first component records, in order, each
hook that was actually invoked together with the context it was invoked
with; the second is the Python result: the final context dict, an early
non-`None` non-dict return value, or a propagated exception.

Source behaviour per hook, in registration order:
* the hook raises — the exception propagates (`raise` after logging) and
  no later hook runs;
* it returns `None` — the context is unchanged for the next hook;
* it returns a dict — `context.update(result)` before the next hook;
* it returns anything else — that value is returned immediately and no
  later hook runs.
With no hooks (or after the loop) the context dict itself is returned. -/
def execute_hooks : List Hook → Ctx → List (Nat × Ctx) × Except PyVal PyVal
  | [], ctx => ([], Except.ok (PyVal.dict ctx))
  | h :: rest, ctx =>
    match h.run ctx with
    | Except.error e => ([(h.id, ctx)], Except.error e)
    | Except.ok PyVal.none =>
        let r := execute_hooks rest ctx
        ((h.id, ctx) :: r.1, r.2)
    | Except.ok (PyVal.dict d) =>
        let r := execute_hooks rest (dictUpdate ctx d)
        ((h.id, ctx) :: r.1, r.2)
    | Except.ok v => ([(h.id, ctx)], Except.ok v)

/-- The registry's `_hooks` map:
`model_name -> hook_type -> list of callables`, both levels
insertion-ordered dicts (Python `defaultdict`). -/
abbrev Registry := List (String × List (String × List Hook))

/-- `HookRegistry.VALID_HOOKS`. -/
def VALID_HOOKS : List String :=
  ["before_create", "after_create", "before_update", "after_update",
   "before_delete", "after_delete"]

/-- `HookRegistry.get_hooks`:
`self._hooks.get(model_name, {}).get(hook_type, [])` — plain `.get`
lookups with defaults, creating nothing. -/
def get_hooks (reg : Registry) (hook_type model_name : String) :
    List Hook :=
  (dictGet ((dictGet reg model_name).getD []) hook_type).getD []

/-- `HookRegistry.register`: rejects an invalid hook type with
`ValueError`, otherwise appends the callable at the end of
`self._hooks[model_name][hook_type]` (both `defaultdict` levels create
empty entries on first access). -/
def register (reg : Registry) (hook_type model_name : String) (h : Hook) :
    Except String Registry :=
  if VALID_HOOKS.contains hook_type then
    Except.ok (dictSetWith reg model_name
      (fun inner => dictSetWith inner hook_type (fun l => l ++ [h]) []) [])
  else
    Except.error ("Invalid hook type: " ++ hook_type)

/-- The Python identity test `should_delete is False` used by the
generated delete handler: true exactly for the boolean `False` object. -/
def isPyFalse : PyVal → Bool
  | PyVal.bool false => true
  | _ => false

/-- Python truthiness (`bool(v)` is `False`): `None`, `False`, `0`, empty
string, empty list, empty dict are falsy. -/
def pyFalsy : PyVal → Bool
  | PyVal.none => true
  | PyVal.bool b => !b
  | PyVal.int n => n == 0
  | PyVal.str s => s.isEmpty
  | PyVal.list l => l.isEmpty
  | PyVal.dict d => d.isEmpty

/-- Whether a value is a Python mapping (`isinstance(result, dict)`). -/
def isPyDict : PyVal → Bool
  | PyVal.dict _ => true
  | _ => false

/-- Result of one call to the delete handler that
`APIGenerator.generate_router` emits (src/generator/api_gen.py,
lines 181–208). `found`: the entity was looked up successfully;
`removed`: `db.delete(item)` ran; `committed`: `db.commit()` ran after
the before-hooks; `afterCalled`: the `after_delete` hooks were executed;
`raised`: the exception that propagated out, if any. -/
structure DeleteOutcome where
  found : Bool
  removed : Bool
  committed : Bool
  afterCalled : Bool
  raised : Option PyVal

/-- Behavioural model of the generated delete handler, abstracted over
the hook lists the registry holds for `(model, before_delete)` and
`(model, after_delete)` and over the looked-up entity (`Option.none`
models a failed lookup, which raises `HTTPException(404)`).

Faithful control flow of the emitted code: run the `before_delete`
hooks with `instance=item`; an exception propagates before any commit;
if the result `is False` the handler commits (hook-side mutations) and
returns without removing; otherwise it deletes, commits, and executes
the `after_delete` hooks with a snapshot of the instance data. -/
def delete_handler (beforeHooks afterHooks : List Hook)
    (item : Option PyVal) : DeleteOutcome :=
  match item with
  | Option.none =>
      ⟨false, false, false, false, Option.some (PyVal.str "HTTPException(404)")⟩
  | Option.some inst =>
    match (execute_hooks beforeHooks [("instance", inst)]).2 with
    | Except.error e => ⟨true, false, false, false, Option.some e⟩
    | Except.ok should_delete =>
      if isPyFalse should_delete then
        ⟨true, false, true, false, Option.none⟩
      else
        match (execute_hooks afterHooks [("instance_data", inst)]).2 with
        | Except.error e => ⟨true, true, true, true, Option.some e⟩
        | Except.ok _ => ⟨true, true, true, true, Option.none⟩

/-! ## Schema data model (src/generator/parser.py) -/

/-- `FieldDefinition` (src/generator/parser.py): one field of a schema,
with the parser's defaults.  `default` is Python `Any`, modelled as an
optional `PyVal`. -/
structure FieldDefinition where
  name : String
  type : String
  primary : Bool := false
  unique : Bool := false
  required : Bool := false
  default : Option PyVal := Option.none
  nullable : Bool := true
  max_length : Option Nat := Option.none
  index : Bool := false

/-- A raw relation dict as stored on `SchemaDefinition.relations`
(`dict[str, Any]`); the validator reads it with `.get("type")` and
`.get("target")`, which return `None` for a missing key. -/
structure RelationDict where
  type : Option String := Option.none
  target : Option String := Option.none

/-- `RelationDefinition` (src/generator/parser.py): a parsed relation, as
consumed by the model generator. -/
structure RelationDefinition where
  type : String
  target : String
  back_populates : Option String := Option.none
  foreign_key : Option String := Option.none

/-- `SchemaDefinition` (src/generator/parser.py), without the raw
`fields` dict: every consumer in these claims receives the field list
separately (`parser.get_field_definitions`). -/
structure SchemaDefinition where
  name : String
  table : String
  relations : List RelationDict := []
  soft_delete : Bool := false
  timestamps : Bool := true

/-! ## Schema validator (src/generator/validator.py) -/

/-- `SchemaValidator.VALID_TYPES`: the fixed 11-type set. -/
def VALID_TYPES : List String :=
  ["string", "integer", "float", "boolean", "datetime", "date", "time",
   "uuid", "text", "json", "binary"]

/-- `SchemaValidator.VALID_RELATION_TYPES`. -/
def VALID_RELATION_TYPES : List String :=
  ["one_to_many", "many_to_one", "many_to_many"]

/-- Sequencing of two Python statements that may raise: the second runs
only if the first did not raise. -/
def seqE (e1 k : Except String Unit) : Except String Unit :=
  match e1 with
  | Except.ok _ => k
  | Except.error e => Except.error e

/-- A Python `for` loop whose body may raise: run `f` on each element,
stopping at (and propagating) the first error. -/
def runAll {α : Type} (f : α → Except String Unit) : List α → Except String Unit
  | [] => Except.ok ()
  | x :: t =>
    match f x with
    | Except.ok _ => runAll f t
    | Except.error e => Except.error e

/-- `SchemaValidator.validate_field_type`. -/
def validate_field_type (f : FieldDefinition) : Except String Unit :=
  if !(VALID_TYPES.contains f.type) then
    Except.error ("Invalid field type " ++ f.type ++ " for field " ++ f.name)
  else Except.ok ()

/-- `SchemaValidator.validate_primary_key`: zero primary keys and more
than one primary key are both rejected. -/
def validate_primary_key (s : SchemaDefinition)
    (fields : List FieldDefinition) : Except String Unit :=
  let primary_keys := fields.filter (fun f => f.primary)
  if primary_keys.length = 0 then
    Except.error ("Schema " ++ s.name ++ " must have a primary key")
  else if primary_keys.length > 1 then
    Except.error ("Schema " ++ s.name ++ " has multiple primary keys")
  else Except.ok ()

/-- `SchemaValidator.validate_required_nullable`. -/
def validate_required_nullable (f : FieldDefinition) : Except String Unit :=
  if f.required && f.nullable && !f.primary then
    Except.error ("Field " ++ f.name ++ " cannot be both required and nullable")
  else Except.ok ()

/-- Python `rel_type in VALID_RELATION_TYPES` where `rel_type` came from
`.get("type")` and may be `None` (never a member of a set of strings). -/
def optMem (v : Option String) (l : List String) : Bool :=
  match v with
  | Option.some s => l.contains s
  | Option.none => false

/-- Python truthiness of an optional string (`if not target`): `None` and
the empty string are falsy. -/
def truthyStr : Option String → Bool
  | Option.none => false
  | Option.some s => !s.isEmpty

/-- The body of the loop in `SchemaValidator.validate_relations`: reject
a relation type outside `VALID_RELATION_TYPES` (including a missing
type), then a falsy target. -/
def validate_relation (schema_name : String) (r : RelationDict) :
    Except String Unit :=
  if !(optMem r.type VALID_RELATION_TYPES) then
    Except.error ("Invalid relation type in schema " ++ schema_name)
  else if !(truthyStr r.target) then
    Except.error ("Relation in schema " ++ schema_name ++ " missing target field")
  else Except.ok ()

/-- `SchemaValidator.validate_relations`. -/
def validate_relations (s : SchemaDefinition) : Except String Unit :=
  runAll (validate_relation s.name) s.relations

/-- `SchemaValidator.validate_schema`: per-field checks (type, then
required/nullable, in field order), then the primary-key count, then the
relation checks. -/
def validate_schema (s : SchemaDefinition) (fields : List FieldDefinition) :
    Except String Unit :=
  seqE (runAll (fun f =>
      seqE (validate_field_type f) (validate_required_nullable f)) fields)
    (seqE (validate_primary_key s fields) (validate_relations s))

/-- The cross-schema target check in `SchemaValidator.validate_all`:
`if target and target not in self.schemas: raise` — a falsy target is
skipped here (it was already rejected by `validate_relations`). -/
def check_relation_target (schemaNames : List String) (r : RelationDict) :
    Except String Unit :=
  match r.target with
  | Option.some t =>
      if !t.isEmpty && !(schemaNames.contains t) then
        Except.error ("Relation target " ++ t ++ " does not exist")
      else Except.ok ()
  | Option.none => Except.ok ()

/-- One iteration of `validate_all`'s first loop: look the schema's
field list up in `field_map` (a Python dict, so a missing name raises
`KeyError`) and validate the schema against it. -/
def validate_schema_entry (field_map : List (String × List FieldDefinition))
    (s : SchemaDefinition) : Except String Unit :=
  match dictGet field_map s.name with
  | Option.some fields => validate_schema s fields
  | Option.none => Except.error ("KeyError: " ++ s.name)

/-- `SchemaValidator.validate_all`: validate every schema against its
field list from `field_map`, then check that every truthy relation
target names a schema (`self.schemas` is the dict built from the schema
names). -/
def validate_all (schemas : List SchemaDefinition)
    (field_map : List (String × List FieldDefinition)) : Except String Unit :=
  seqE (runAll (validate_schema_entry field_map) schemas)
    (runAll (fun s =>
        runAll (check_relation_target (schemas.map (fun s2 => s2.name)))
          s.relations)
      schemas)

/-- Modelled from the claim wording (C2), for comparison with
`validate_all`: acceptance iff, in every schema, exactly one field has
`primary=true`, every field type is in the fixed 11-type set, no field
is both required and nullable unless primary, and every relation target
exists in the full schema set. -/
def claim_accepts (schemas : List SchemaDefinition)
    (field_map : List (String × List FieldDefinition)) : Bool :=
  schemas.all (fun s =>
    match dictGet field_map s.name with
    | Option.some fields =>
        ((fields.filter (fun f => f.primary)).length == 1) &&
        fields.all (fun f => VALID_TYPES.contains f.type) &&
        fields.all (fun f => !(f.required && f.nullable && !f.primary))
    | Option.none => false) &&
  schemas.all (fun s => s.relations.all (fun r =>
    match r.target with
    | Option.some t => (schemas.map (fun s2 => s2.name)).contains t
    | Option.none => false))

/-- The claim's acceptance condition amended by what the code actually
enforces in addition: every relation's type must be one of the three
valid relation types, and every relation's target must be truthy
(present and non-empty). -/
def amended_accepts (schemas : List SchemaDefinition)
    (field_map : List (String × List FieldDefinition)) : Bool :=
  claim_accepts schemas field_map &&
  schemas.all (fun s => s.relations.all (fun r =>
    optMem r.type VALID_RELATION_TYPES && truthyStr r.target))

/-! ## Model generator (src/generator/model_gen.py) -/

mutual

/-- Python `repr` of a value, as `str()` renders container elements. -/
def pyRepr : PyVal → String
  | PyVal.none => "None"
  | PyVal.bool true => "True"
  | PyVal.bool false => "False"
  | PyVal.int n => toString n
  | PyVal.str s => "\x27" ++ s ++ "\x27"
  | PyVal.list l => "[" ++ pyReprList l ++ "]"
  | PyVal.dict d => "\x7b" ++ pyReprDict d ++ "\x7d"

/-- Comma-separated `repr`s of the elements of a Python list. -/
def pyReprList : List PyVal → String
  | [] => ""
  | [x] => pyRepr x
  | x :: t => pyRepr x ++ ", " ++ pyReprList t

/-- Comma-separated `key: value` `repr`s of the items of a Python dict. -/
def pyReprDict : List (String × PyVal) → String
  | [] => ""
  | [(k, v)] => "\x27" ++ k ++ "\x27: " ++ pyRepr v
  | (k, v) :: t => "\x27" ++ k ++ "\x27: " ++ pyRepr v ++ ", " ++ pyReprDict t

end

/-- Python `str()` as used by an f-string: identity on strings, `repr`
everywhere else. -/
def pyStr : PyVal → String
  | PyVal.str s => s
  | v => pyRepr v

/-- `ModelGenerator.TYPE_MAPPING.get(t, "String")`. -/
def TYPE_MAPPING (t : String) : String :=
  if t == "string" then "String"
  else if t == "integer" then "Integer"
  else if t == "float" then "Float"
  else if t == "boolean" then "Boolean"
  else if t == "datetime" then "DateTime"
  else if t == "date" then "Date"
  else if t == "time" then "Time"
  else if t == "uuid" then "UUID"
  else if t == "text" then "Text"
  else if t == "json" then "JSON"
  else if t == "binary" then "LargeBinary"
  else "String"

/-- `ModelGenerator._get_sqlalchemy_type`: a string field with a truthy
(non-zero) `max_length` becomes `String(n)`. -/
def get_sqlalchemy_type (f : FieldDefinition) : String :=
  match f.max_length with
  | Option.some n =>
      if f.type == "string" && n != 0 then "String(" ++ toString n ++ ")"
      else TYPE_MAPPING f.type
  | Option.none => TYPE_MAPPING f.type

/-- The `default=` argument rendered by
`ModelGenerator._generate_field_code`: strings are quoted, everything
else goes through `str()` (booleans print as `True`/`False`). -/
def render_default : PyVal → String
  | PyVal.str s => "default=\"" ++ s ++ "\""
  | v => "default=" ++ pyStr v

/-- `ModelGenerator._generate_field_code`: one `Column(...)` line, with
the constraint arguments in the source's order (primary key and its uuid
default, unique, non-nullable, index, default). -/
def generate_field_code (f : FieldDefinition) : String :=
  let sa_type := get_sqlalchemy_type f
  let args := [sa_type]
    ++ (if f.primary then
          ["primary_key=True"] ++
            (if f.type == "uuid" then ["default=uuid.uuid4"] else [])
        else [])
    ++ (if f.unique then ["unique=True"] else [])
    ++ (if !f.nullable then ["nullable=False"] else [])
    ++ (if f.index then ["index=True"] else [])
    ++ (match f.default with
        | Option.some v => [render_default v]
        | Option.none => [])
  "    " ++ f.name ++ " = Column(" ++ String.intercalate ", " args ++ ")"

/-- Python `str.lower()` on the ASCII identifiers the generators handle,
implemented over the character list (kernel-reducible, unlike
`String.toLower`, whose loop the kernel cannot unfold). -/
def pyLower (s : String) : String := String.mk (s.toList.map Char.toLower)

/-- Python `a or b` on an optional string: the default is used when the
value is `None` or empty. -/
def orDefault (v : Option String) (dflt : String) : String :=
  match v with
  | Option.some s => if s.isEmpty then dflt else s
  | Option.none => dflt

/-- `ModelGenerator._generate_relation_code`: an unknown relation type
yields the empty string; `many_to_one` yields two lines in one string. -/
def generate_relation_code (rel : RelationDefinition) (schema_name : String) :
    String :=
  let target := rel.target
  if rel.type == "one_to_many" then
    let back_pop := orDefault rel.back_populates (pyLower schema_name ++ "s")
    "    " ++ pyLower target ++ "s = relationship(\"" ++ target ++
      "\", back_populates=\"" ++ back_pop ++ "\")"
  else if rel.type == "many_to_one" then
    let back_pop := orDefault rel.back_populates (pyLower target)
    let fk := orDefault rel.foreign_key (pyLower target ++ "s.id")
    "    " ++ pyLower target ++ "_id = Column(UUID, ForeignKey(\"" ++ fk ++
      "\"))\n    " ++ pyLower target ++ " = relationship(\"" ++ target ++
      "\", back_populates=\"" ++ back_pop ++ "\")"
  else if rel.type == "many_to_many" then
    let back_pop := orDefault rel.back_populates (pyLower schema_name ++ "s")
    "    " ++ pyLower target ++ "s = relationship(\"" ++ target ++
      "\", secondary=\"" ++ pyLower schema_name ++ "_" ++ pyLower target ++
      "\", back_populates=\"" ++ back_pop ++ "\")"
  else ""

/-- The `created_at` column line appended when `schema.timestamps`. -/
def tsCreatedLine : String :=
  "    created_at = Column(DateTime, default=datetime.utcnow, nullable=False)"

/-- The `updated_at` column line appended when `schema.timestamps`. -/
def tsUpdatedLine : String :=
  "    updated_at = Column(DateTime, default=datetime.utcnow, onupdate=datetime.utcnow, nullable=False)"

/-- The `deleted_at` column line appended when `schema.soft_delete`. -/
def softDeleteLine : String :=
  "    deleted_at = Column(DateTime, nullable=True)"

/-- The class-body lines assembled by `ModelGenerator.generate_model`
(lines 97–119): declared field lines, then the timestamp columns if
enabled, then the soft-delete column if enabled, then the relationship
lines. -/
def model_class_body_lines (schema : SchemaDefinition)
    (fields : List FieldDefinition) (relations : List RelationDefinition) :
    List String :=
  let field_lines := fields.map generate_field_code
  let timestamp_fields :=
    if schema.timestamps then [tsCreatedLine, tsUpdatedLine] else []
  let soft_delete_field :=
    if schema.soft_delete then [softDeleteLine] else []
  let relation_lines :=
    relations.map (fun r => generate_relation_code r schema.name)
  field_lines ++ timestamp_fields ++ soft_delete_field ++ relation_lines

/-- `ModelGenerator.generate_model`: the complete model source string. -/
def generate_model (schema : SchemaDefinition) (fields : List FieldDefinition)
    (relations : List RelationDefinition) : String :=
  let imports := [
    "from sqlalchemy import Column, String, Integer, Float, Boolean, DateTime, Date, Time, Text, JSON, LargeBinary, ForeignKey, UUID",
    "from sqlalchemy.orm import relationship",
    "from datetime import datetime",
    "from app.core.database import Base",
    "import uuid"]
  let class_body :=
    String.intercalate "\n" (model_class_body_lines schema fields relations)
  "\"\"\"Auto-generated model for " ++ schema.name ++ ".\"\"\"\n" ++
  String.intercalate "\n" imports ++ "\n\n\nclass " ++ schema.name ++
  "(Base):\n    \"\"\"SQLAlchemy model for " ++ schema.name ++
  ".\"\"\"\n    __tablename__ = \"" ++ schema.table ++ "\"\n\n" ++
  class_body ++ "\n"

/-! ## API generator (src/generator/api_gen.py) -/

/-- Whether `needle` occurs in `hs` (Python `in` on strings), on
character lists. -/
def strContainsAux (needle : List Char) : List Char → Bool
  | [] => needle.isPrefixOf []
  | c :: t => needle.isPrefixOf (c :: t) || strContainsAux needle t

/-- Python `needle in hay` for strings. -/
def strContains (hay needle : String) : Bool :=
  strContainsAux needle.toList hay.toList

/-- `APIGenerator._get_python_type`'s `type_map.get(t, "str")`. -/
def pyTypeBase (t : String) : String :=
  if t == "string" then "str"
  else if t == "integer" then "int"
  else if t == "float" then "float"
  else if t == "boolean" then "bool"
  else if t == "datetime" then "datetime"
  else if t == "date" then "date"
  else if t == "time" then "time"
  else if t == "uuid" then "UUID"
  else if t == "text" then "str"
  else if t == "json" then "dict"
  else if t == "binary" then "bytes"
  else "str"

/-- `APIGenerator._get_python_type`: nullable non-primary fields get a
`| None` union. -/
def get_python_type (f : FieldDefinition) : String :=
  let python_type := pyTypeBase f.type
  if f.nullable && !f.primary then python_type ++ " | None" else python_type

/-- One field line of `APIGenerator._generate_pydantic_schema`: for
`Update` every field is made optional with a `= None` default (the
`| None` union is added unless the type already mentions `None`); for
the other schema kinds a non-required, non-primary field defaults to
`None`. -/
def pydantic_field_line (schema_type : String) (f : FieldDefinition) : String :=
  let python_type := get_python_type f
  if schema_type == "Update" then
    let pt :=
      if strContains python_type "None" then python_type
      else python_type ++ " | None"
    "    " ++ f.name ++ ": " ++ pt ++ " = None"
  else if !f.required && !f.primary then
    "    " ++ f.name ++ ": " ++ python_type ++ " = None"
  else
    "    " ++ f.name ++ ": " ++ python_type

/-- The field lines of `APIGenerator._generate_pydantic_schema`: the
primary-key field is skipped for `Create` only, and the `Response`
schema of a timestamped schema gains `created_at`/`updated_at`. -/
def pydantic_field_lines (schema : SchemaDefinition)
    (fields : List FieldDefinition) (schema_type : String) : List String :=
  (fields.filter (fun f => !(schema_type == "Create" && f.primary))).map
    (pydantic_field_line schema_type)
  ++ (if schema_type == "Response" && schema.timestamps then
        ["    created_at: datetime", "    updated_at: datetime"]
      else [])

/-- `APIGenerator._generate_pydantic_schema`: the full class text. -/
def generate_pydantic_schema (schema : SchemaDefinition)
    (fields : List FieldDefinition) (schema_type : String) : String :=
  let field_lines := pydantic_field_lines schema fields schema_type
  let class_body :=
    if field_lines.isEmpty then "    pass"
    else String.intercalate "\n" field_lines
  "class " ++ schema.name ++ schema_type ++ "(BaseModel):\n" ++
  "    \"\"\"Pydantic schema for " ++ schema.name ++ " " ++
  pyLower schema_type ++ ".\"\"\"\n" ++ class_body ++
  "\n    \n    class Config:\n        from_attributes = True\n"

/-- Python `str.rstrip("s")`: drop every trailing `s`. -/
def rstripS (s : String) : String :=
  String.mk ((s.toList.reverse.dropWhile (fun c => c == 's')).reverse)

/-- `APIGenerator.generate_router`: the complete CRUD router source
string (imports, the three pydantic schemas, and the five handlers). -/
def generate_router (schema : SchemaDefinition)
    (fields : List FieldDefinition) : String :=
  let model_name := schema.name
  let table_name := schema.table
  let route_prefix := "/" ++ table_name
  let pk_field := fields.find? (fun f => f.primary)
  let pk_name := match pk_field with
    | Option.some f => f.name
    | Option.none => "id"
  let pk_type := match pk_field with
    | Option.some f => get_python_type f
    | Option.none => "UUID"
  let singular := rstripS table_name
  let imports :=
    "\"\"\"Auto-generated CRUD router for " ++ model_name ++ ".\"\"\"\n" ++
    "from fastapi import APIRouter, Depends, HTTPException, Query\n" ++
    "from sqlalchemy.orm import Session\n" ++
    "from typing import List\n" ++
    "from datetime import datetime, date, time\n" ++
    "from uuid import UUID\n" ++
    "from pydantic import BaseModel\n" ++
    "\n" ++
    "from app.core.database import get_db\n" ++
    "from app.models." ++ pyLower model_name ++ " import " ++ model_name ++ "\n" ++
    "from app.core.hooks import hook_registry\n"
  let create_schema := generate_pydantic_schema schema fields "Create"
  let update_schema := generate_pydantic_schema schema fields "Update"
  let response_schema := generate_pydantic_schema schema fields "Response"
  let schemas :=
    "\n" ++ create_schema ++ "\n\n" ++ update_schema ++ "\n\n" ++
    response_schema
  let router_code :=
    "\nrouter = APIRouter(prefix=\"" ++ route_prefix ++ "\", tags=[\"" ++
      table_name ++ "\"])\n" ++
    "\n\n@router.post(\"/\", response_model=" ++ model_name ++
      "Response, status_code=201)\n" ++
    "def create_" ++ singular ++ "(\n" ++
    "    item: " ++ model_name ++ "Create,\n" ++
    "    db: Session = Depends(get_db)\n" ++
    "):\n" ++
    "    \"\"\"Create a new " ++ model_name ++ ".\"\"\"\n" ++
    "    # Execute before_create hooks\n" ++
    "    data = item.model_dump()\n" ++
    "    hook_registry.execute_hooks(\"before_create\", \"" ++ model_name ++
      "\", data=data)\n" ++
    "    \n" ++
    "    db_item = " ++ model_name ++ "(**data)\n" ++
    "    db.add(db_item)\n" ++
    "    db.commit()\n" ++
    "    db.refresh(db_item)\n" ++
    "    \n" ++
    "    # Execute after_create hooks\n" ++
    "    hook_registry.execute_hooks(\"after_create\", \"" ++ model_name ++
      "\", instance=db_item)\n" ++
    "    \n" ++
    "    return db_item\n" ++
    "\n\n@router.get(\"/\", response_model=List[" ++ model_name ++
      "Response])\n" ++
    "def list_" ++ table_name ++ "(\n" ++
    "    skip: int = Query(0, ge=0),\n" ++
    "    limit: int = Query(100, ge=1, le=1000),\n" ++
    "    db: Session = Depends(get_db)\n" ++
    "):\n" ++
    "    \"\"\"List all " ++ table_name ++ " with pagination.\"\"\"\n" ++
    "    items = db.query(" ++ model_name ++
      ").offset(skip).limit(limit).all()\n" ++
    "    return items\n" ++
    "\n\n@router.get(\"/\x7b" ++ pk_name ++ "\x7d\", response_model=" ++
      model_name ++ "Response)\n" ++
    "def get_" ++ singular ++ "(\n" ++
    "    " ++ pk_name ++ ": " ++ pk_type ++ ",\n" ++
    "    db: Session = Depends(get_db)\n" ++
    "):\n" ++
    "    \"\"\"Get a single " ++ model_name ++ " by ID.\"\"\"\n" ++
    "    item = db.query(" ++ model_name ++ ").filter(" ++ model_name ++
      "." ++ pk_name ++ " == " ++ pk_name ++ ").first()\n" ++
    "    if not item:\n" ++
    "        raise HTTPException(status_code=404, detail=\"" ++ model_name ++
      " not found\")\n" ++
    "    return item\n" ++
    "\n\n@router.put(\"/\x7b" ++ pk_name ++ "\x7d\", response_model=" ++
      model_name ++ "Response)\n" ++
    "def update_" ++ singular ++ "(\n" ++
    "    " ++ pk_name ++ ": " ++ pk_type ++ ",\n" ++
    "    item_update: " ++ model_name ++ "Update,\n" ++
    "    db: Session = Depends(get_db)\n" ++
    "):\n" ++
    "    \"\"\"Update a " ++ model_name ++ ".\"\"\"\n" ++
    "    item = db.query(" ++ model_name ++ ").filter(" ++ model_name ++
      "." ++ pk_name ++ " == " ++ pk_name ++ ").first()\n" ++
    "    if not item:\n" ++
    "        raise HTTPException(status_code=404, detail=\"" ++ model_name ++
      " not found\")\n" ++
    "    \n" ++
    "    # Store old data for audit hooks\n" ++
    "    old_data = \x7bk: v for k, v in item.__dict__.items() if not k.startswith(\x27_\x27)\x7d\n" ++
    "    \n" ++
    "    # Execute before_update hooks\n" ++
    "    update_data = item_update.model_dump(exclude_unset=True)\n" ++
    "    hook_registry.execute_hooks(\"before_update\", \"" ++ model_name ++
      "\", instance=item, data=update_data)\n" ++
    "    \n" ++
    "    for field, value in update_data.items():\n" ++
    "        setattr(item, field, value)\n" ++
    "    \n" ++
    "    db.commit()\n" ++
    "    db.refresh(item)\n" ++
    "    \n" ++
    "    # Execute after_update hooks\n" ++
    "    hook_registry.execute_hooks(\"after_update\", \"" ++ model_name ++
      "\", instance=item, old_data=old_data)\n" ++
    "    \n" ++
    "    return item\n" ++
    "\n\n@router.delete(\"/\x7b" ++ pk_name ++ "\x7d\", status_code=204)\n" ++
    "def delete_" ++ singular ++ "(\n" ++
    "    " ++ pk_name ++ ": " ++ pk_type ++ ",\n" ++
    "    db: Session = Depends(get_db)\n" ++
    "):\n" ++
    "    \"\"\"Delete a " ++ model_name ++ ".\"\"\"\n" ++
    "    item = db.query(" ++ model_name ++ ").filter(" ++ model_name ++
      "." ++ pk_name ++ " == " ++ pk_name ++ ").first()\n" ++
    "    if not item:\n" ++
    "        raise HTTPException(status_code=404, detail=\"" ++ model_name ++
      " not found\")\n" ++
    "    \n" ++
    "    # Execute before_delete hooks (can abort deletion)\n" ++
    "    should_delete = hook_registry.execute_hooks(\"before_delete\", \"" ++
      model_name ++ "\", instance=item)\n" ++
    "    \n" ++
    "    if should_delete is False:\n" ++
    "        # Hook aborted deletion (e.g., soft delete)\n" ++
    "        db.commit()  # Commit any changes made by hooks\n" ++
    "        return None\n" ++
    "    \n" ++
    "    # Store instance data for after_delete hooks\n" ++
    "    instance_data = \x7bk: v for k, v in item.__dict__.items() if not k.startswith(\x27_\x27)\x7d\n" ++
    "    \n" ++
    "    db.delete(item)\n" ++
    "    db.commit()\n" ++
    "    \n" ++
    "    # Execute after_delete hooks\n" ++
    "    hook_registry.execute_hooks(\"after_delete\", \"" ++ model_name ++
      "\", instance_data=instance_data)\n" ++
    "    \n" ++
    "    return None\n"
  imports ++ schemas ++ router_code

/-! ## Concrete instances used to exercise the theorems -/

/-- A hook behaving like a pure logging hook: returns `None`. -/
def hkLog : Hook := ⟨1, fun _ => Except.ok PyVal.none⟩

/-- A hook that mutates the context: returns a mapping. -/
def hkMut : Hook := ⟨2, fun _ => Except.ok (PyVal.dict [("touched", PyVal.bool true)])⟩

/-- A hook that raises an exception. -/
def hkRaise : Hook := ⟨3, fun _ => Except.error (PyVal.str "boom")⟩

/-- A `before_delete` hook returning the falsy non-mapping value `0`. -/
def hkZero : Hook := ⟨4, fun _ => Except.ok (PyVal.int 0)⟩

/-- A `before_delete` hook returning the boolean `False`. -/
def hkFalse : Hook := ⟨5, fun _ => Except.ok (PyVal.bool false)⟩

/-- A hook is benign when, on every context, it returns `None` or a
mapping (so `execute_hooks` neither stops early nor raises at it). -/
def noneOrDict (h : Hook) : Prop :=
  ∀ c, h.run c = Except.ok PyVal.none ∨
    ∃ d, h.run c = Except.ok (PyVal.dict d)

/-- Schema whose only relation has an invalid type but an existing
target: every condition the claim lists holds, yet validation fails. -/
def c2schema : SchemaDefinition :=
  { name := "A", table := "a",
    relations := [{ type := Option.some "one_to_one", target := Option.some "A" }] }

/-- A single valid uuid primary-key field. -/
def c2fields : List FieldDefinition :=
  [{ name := "id", type := "uuid", primary := true }]

/-- Field map for `c2schema`. -/
def c2fm : List (String × List FieldDefinition) := [("A", c2fields)]

/-- A fully valid schema (valid relation type and target). -/
def c2good : List SchemaDefinition :=
  [{ name := "User", table := "users",
     relations := [{ type := Option.some "one_to_many", target := Option.some "User" }] }]

/-- Field map for `c2good`. -/
def c2goodFM : List (String × List FieldDefinition) := [("User", c2fields)]

/-- Schema with timestamps and soft-delete enabled. -/
def c3schema : SchemaDefinition :=
  { name := "User", table := "users", soft_delete := true, timestamps := true }

/-- A single uuid primary-key field for `c3schema`. -/
def c3fields : List FieldDefinition :=
  [{ name := "id", type := "uuid", primary := true }]

/-- One parsed one-to-many relation for `c3schema`. -/
def c3rels : List RelationDefinition :=
  [{ type := "one_to_many", target := "Post" }]

/-- The relationship line `generate_relation_code` emits for `c3rels`. -/
def c3relLine : String :=
  "    posts = relationship(\"Post\", back_populates=\"users\")"

/-- A schema used to exercise the pydantic-schema generator. -/
def c6schema : SchemaDefinition := { name := "Item", table := "items" }

/-- A primary uuid field plus one required string field. -/
def c6fields : List FieldDefinition :=
  [{ name := "id", type := "uuid", primary := true },
   { name := "title", type := "string", required := true, nullable := false }]

/-! ## Dictionary lemmas -/

theorem dictGet_eq_none_of_not_any {α : Type} (d : List (String × α)) (k : String)
    (h : d.any (fun p => p.1 == k) = false) : dictGet d k = Option.none := by
  induction d with
  | nil => rfl
  | cons p t ih =>
    obtain ⟨ka, v⟩ := p
    simp only [List.any_cons, Bool.or_eq_false_iff] at h
    simp only [dictGet, h.1, Bool.false_eq_true, if_false]
    exact ih h.2

theorem dictGet_isSome_of_any {α : Type} (d : List (String × α)) (k : String)
    (h : d.any (fun p => p.1 == k) = true) : (dictGet d k).isSome = true := by
  induction d with
  | nil => simp at h
  | cons p t ih =>
    obtain ⟨ka, v⟩ := p
    simp only [List.any_cons, Bool.or_eq_true] at h
    cases hk : (ka == k) with
    | true => simp [dictGet, hk]
    | false =>
      rcases h with h | h
      · rw [hk] at h
        exact absurd h (by simp)
      · simp only [dictGet, hk, Bool.false_eq_true, if_false]
        exact ih h

theorem dictGet_map_set {α : Type} (d : List (String × α)) (k : String) (f : α → α) :
    dictGet (d.map (fun p => if p.1 == k then (p.1, f p.2) else p)) k =
      (dictGet d k).map f := by
  induction d with
  | nil => rfl
  | cons p t ih =>
    obtain ⟨ka, v⟩ := p
    rw [List.map_cons]
    cases hk : (ka == k) with
    | true => simp [dictGet, hk]
    | false =>
      simp only [dictGet, hk, Bool.false_eq_true, if_false]
      exact ih

theorem dictGet_map_set_ne {α : Type} (d : List (String × α)) (k k2 : String)
    (f : α → α) (hne : k2 ≠ k) :
    dictGet (d.map (fun p => if p.1 == k then (p.1, f p.2) else p)) k2 =
      dictGet d k2 := by
  induction d with
  | nil => rfl
  | cons p t ih =>
    obtain ⟨ka, v⟩ := p
    rw [List.map_cons]
    cases hk : (ka == k) with
    | true =>
      have hka : ka = k := by simpa using hk
      have h2 : (ka == k2) = false := by
        rw [hka]
        have hne2 : ¬ (k = k2) := fun h => hne h.symm
        simp [hne2]
      simp only [dictGet, h2, Bool.false_eq_true, if_false, if_pos, if_true]
      simpa [dictGet, h2] using ih
    | false =>
      cases h2 : (ka == k2) with
      | true => simp [dictGet, h2]
      | false =>
        simp only [dictGet, h2, Bool.false_eq_true, if_false]
        exact ih

theorem dictGet_append_some {α : Type} (d e : List (String × α)) (k : String)
    (v : α) (h : dictGet d k = Option.some v) :
    dictGet (d ++ e) k = Option.some v := by
  induction d with
  | nil => simp [dictGet] at h
  | cons p t ih =>
    obtain ⟨ka, v2⟩ := p
    rw [List.cons_append]
    simp only [dictGet] at h ⊢
    cases hk : (ka == k) with
    | true =>
      rw [hk] at h
      simpa using h
    | false =>
      rw [hk] at h
      simp only [Bool.false_eq_true, if_false] at h ⊢
      exact ih h

theorem dictGet_append_last {α : Type} (d : List (String × α)) (k k2 : String)
    (x : α) (h : dictGet d k2 = Option.none) :
    dictGet (d ++ [(k, x)]) k2 =
      if k == k2 then Option.some x else Option.none := by
  induction d with
  | nil => rfl
  | cons p t ih =>
    obtain ⟨ka, v⟩ := p
    rw [List.cons_append]
    simp only [dictGet] at h ⊢
    cases hk : (ka == k2) with
    | true =>
      rw [hk] at h
      simp at h
    | false =>
      rw [hk] at h
      simp only [Bool.false_eq_true, if_false] at h ⊢
      exact ih h

theorem dictGet_dictSetWith_same {α : Type} (d : List (String × α)) (k : String)
    (f : α → α) (dflt : α) :
    dictGet (dictSetWith d k f dflt) k =
      Option.some (f ((dictGet d k).getD dflt)) := by
  unfold dictSetWith
  cases hany : d.any (fun p => p.1 == k) with
  | false =>
    have hnone := dictGet_eq_none_of_not_any d k hany
    simp only [Bool.false_eq_true, if_false]
    rw [dictGet_append_last d k k (f dflt) hnone]
    simp [hnone]
  | true =>
    have hsome := dictGet_isSome_of_any d k hany
    obtain ⟨v, hv⟩ := Option.isSome_iff_exists.mp hsome
    simp only [if_true]
    rw [dictGet_map_set, hv]
    simp

theorem dictGet_dictSetWith_ne {α : Type} (d : List (String × α)) (k k2 : String)
    (f : α → α) (dflt : α) (hne : k2 ≠ k) :
    dictGet (dictSetWith d k f dflt) k2 = dictGet d k2 := by
  unfold dictSetWith
  cases hany : d.any (fun p => p.1 == k) with
  | false =>
    simp only [Bool.false_eq_true, if_false]
    cases hd : dictGet d k2 with
    | none =>
      rw [dictGet_append_last d k k2 (f dflt) hd]
      have hkk : (k == k2) = false := by
        have hne2 : ¬ (k = k2) := fun h => hne h.symm
        simp [hne2]
      simp [hkk]
    | some v => exact dictGet_append_some d [(k, f dflt)] k2 v hd
  | true =>
    simp only [if_true]
    exact dictGet_map_set_ne d k k2 f hne

/-! ## Hook-execution lemmas -/

theorem execute_hooks_cons_none (h : Hook) (rest : List Hook) (ctx : Ctx)
    (hr : h.run ctx = Except.ok PyVal.none) :
    execute_hooks (h :: rest) ctx =
      ((h.id, ctx) :: (execute_hooks rest ctx).1, (execute_hooks rest ctx).2) := by
  simp only [execute_hooks, hr]

theorem execute_hooks_cons_dict (h : Hook) (rest : List Hook) (ctx : Ctx)
    (d : List (String × PyVal)) (hr : h.run ctx = Except.ok (PyVal.dict d)) :
    execute_hooks (h :: rest) ctx =
      ((h.id, ctx) :: (execute_hooks rest (dictUpdate ctx d)).1,
        (execute_hooks rest (dictUpdate ctx d)).2) := by
  simp only [execute_hooks, hr]

theorem execute_hooks_trace_head (h : Hook) (rest : List Hook) (ctx : Ctx) :
    ∃ t2, (execute_hooks (h :: rest) ctx).1 = (h.id, ctx) :: t2 := by
  simp only [execute_hooks]
  cases hr : h.run ctx with
  | error e => exact ⟨[], rfl⟩
  | ok v =>
    cases v with
    | none => exact ⟨(execute_hooks rest ctx).1, rfl⟩
    | dict d => exact ⟨(execute_hooks rest (dictUpdate ctx d)).1, rfl⟩
    | bool b => exact ⟨[], rfl⟩
    | int n => exact ⟨[], rfl⟩
    | str s => exact ⟨[], rfl⟩
    | list l => exact ⟨[], rfl⟩

theorem execute_hooks_benign (hooks : List Hook) (ctx : Ctx)
    (hb : ∀ h ∈ hooks, noneOrDict h) :
    ((execute_hooks hooks ctx).1.map Prod.fst = hooks.map Hook.id) ∧
    ∃ c2, (execute_hooks hooks ctx).2 = Except.ok (PyVal.dict c2) := by
  induction hooks generalizing ctx with
  | nil => exact ⟨rfl, ctx, rfl⟩
  | cons h rest ih =>
    have hrest := fun c => ih c (fun g hg => hb g (List.mem_cons_of_mem h hg))
    rcases hb h (List.mem_cons_self h rest) ctx with hnone | ⟨d, hdict⟩
    · simp only [execute_hooks, hnone]
      obtain ⟨htr, c2, hres⟩ := hrest ctx
      exact ⟨by simp [htr], c2, hres⟩
    · simp only [execute_hooks, hdict]
      obtain ⟨htr, c2, hres⟩ := hrest (dictUpdate ctx d)
      exact ⟨by simp [htr], c2, hres⟩

theorem execute_hooks_early (pre : List Hook) (h : Hook) (post : List Hook)
    (ctx : Ctx) (v : PyVal) (hpre : ∀ g ∈ pre, noneOrDict g)
    (hh : ∀ c, h.run c = Except.ok v) (hv1 : v ≠ PyVal.none)
    (hv2 : isPyDict v = false) :
    (execute_hooks (pre ++ h :: post) ctx).2 = Except.ok v := by
  induction pre generalizing ctx with
  | nil =>
    rw [List.nil_append]
    simp only [execute_hooks, hh ctx]
    cases v with
    | none => exact absurd rfl hv1
    | dict d => simp [isPyDict] at hv2
    | bool b => rfl
    | int n => rfl
    | str s => rfl
    | list l => rfl
  | cons g pre ih =>
    have hrest := fun c => ih c (fun g2 hg2 => hpre g2 (List.mem_cons_of_mem g hg2))
    rcases hpre g (List.mem_cons_self g pre) ctx with hnone | ⟨d, hdict⟩
    · rw [List.cons_append]
      simp only [execute_hooks, hnone]
      exact hrest ctx
    · rw [List.cons_append]
      simp only [execute_hooks, hdict]
      exact hrest (dictUpdate ctx d)

/-! ## Claim theorems: the hook system -/

/-- C7: an exception raised by a hook propagates unchanged out of
`execute_hooks` (the `except` clause logs and re-raises), and no hook
after the raising one is invoked: the invocation trace is exactly the
benign prefix followed by the raising hook. -/
theorem C7_hook_exception_propagates (pre : List Hook) (h : Hook)
    (post : List Hook) (ctx : Ctx) (e : PyVal)
    (hpre : ∀ g ∈ pre, noneOrDict g) (hh : ∀ c, h.run c = Except.error e) :
    (execute_hooks (pre ++ h :: post) ctx).2 = Except.error e ∧
    (execute_hooks (pre ++ h :: post) ctx).1.map Prod.fst =
      pre.map Hook.id ++ [h.id] := by
  induction pre generalizing ctx with
  | nil =>
    rw [List.nil_append]
    simp [execute_hooks, hh ctx]
  | cons g pre ih =>
    have hrest := fun c => ih c (fun g2 hg2 => hpre g2 (List.mem_cons_of_mem g hg2))
    rcases hpre g (List.mem_cons_self g pre) ctx with hnone | ⟨d, hdict⟩
    · rw [List.cons_append]
      simp only [execute_hooks, hnone]
      obtain ⟨h1, h2⟩ := hrest ctx
      exact ⟨h1, by simp [h2]⟩
    · rw [List.cons_append]
      simp only [execute_hooks, hdict]
      obtain ⟨h1, h2⟩ := hrest (dictUpdate ctx d)
      exact ⟨h1, by simp [h2]⟩

/-- Witness for C7 at a concrete input: a logging hook, then a raising
hook, then a mutating hook that is never reached. -/
theorem C7_witness :
    (execute_hooks [hkLog, hkRaise, hkMut] []).2 =
      Except.error (PyVal.str "boom") ∧
    (execute_hooks [hkLog, hkRaise, hkMut] []).1.map Prod.fst = [1, 3] := by
  have h := C7_hook_exception_propagates [hkLog] hkRaise [hkMut] []
    (PyVal.str "boom")
    (by
      intro g hg c
      rcases List.mem_singleton.mp hg with rfl
      exact Or.inl rfl)
    (fun c => rfl)
  exact h

/-- C4: for two hooks `A` then `B` at the head of the registered list
for a key, `execute_hooks` invokes `A` first (on the incoming context)
and `B` second; if `A` returned a mapping `m`, `B` is invoked on the
context updated with `m`; if `A` returned `None`, `B` is invoked on the
unchanged context. -/
theorem C4_hook_order_and_mutation (A B : Hook) (rest : List Hook) (ctx : Ctx) :
    (∀ m, A.run ctx = Except.ok (PyVal.dict m) →
      (execute_hooks (A :: B :: rest) ctx).1.take 2 =
        [(A.id, ctx), (B.id, dictUpdate ctx m)]) ∧
    (A.run ctx = Except.ok PyVal.none →
      (execute_hooks (A :: B :: rest) ctx).1.take 2 =
        [(A.id, ctx), (B.id, ctx)]) := by
  constructor
  · intro m hm
    rw [execute_hooks_cons_dict A (B :: rest) ctx m hm]
    obtain ⟨t2, ht⟩ := execute_hooks_trace_head B rest (dictUpdate ctx m)
    rw [ht]
    rfl
  · intro hA
    rw [execute_hooks_cons_none A (B :: rest) ctx hA]
    obtain ⟨t2, ht⟩ := execute_hooks_trace_head B rest ctx
    rw [ht]
    rfl

/-- Witness for C4 at a concrete input: the mutating hook runs first and
the logging hook observes the merged context. -/
theorem C4_witness :
    (execute_hooks [hkMut, hkLog] []).1.take 2 =
      [(2, []), (1, [("touched", PyVal.bool true)])] := by
  have h := (C4_hook_order_and_mutation hkMut hkLog [] []).1
    [("touched", PyVal.bool true)] rfl
  exact h

/-- C8: with no hooks registered for a key, `execute_hooks` returns the
keyword context itself as a dict (never `None`, never an abort value)
and invokes nothing; consequently the generated delete handler, given an
empty `before_delete` hook list, removes the entity and commits. -/
theorem C8_no_hooks_registered (reg : Registry) (t m : String) (ctx : Ctx)
    (inst : PyVal) (afterH : List Hook) (hnone : get_hooks reg t m = []) :
    execute_hooks (get_hooks reg t m) ctx = ([], Except.ok (PyVal.dict ctx)) ∧
    (delete_handler (get_hooks reg t m) afterH (Option.some inst)).removed =
      true ∧
    (delete_handler (get_hooks reg t m) afterH (Option.some inst)).committed =
      true := by
  rw [hnone]
  refine ⟨rfl, ?_, ?_⟩ <;>
  · simp only [delete_handler, execute_hooks, isPyFalse]
    cases h2 : (execute_hooks afterH [("instance_data", inst)]).2 with
    | error e => simp [h2]
    | ok v => simp [h2]

/-- Witness for C8 at a concrete input: the empty registry. -/
theorem C8_witness :
    execute_hooks (get_hooks [] "before_delete" "Post") [("instance", PyVal.int 1)] =
      ([], Except.ok (PyVal.dict [("instance", PyVal.int 1)])) ∧
    (delete_handler (get_hooks [] "before_delete" "Post") []
      (Option.some (PyVal.int 1))).removed = true ∧
    (delete_handler (get_hooks [] "before_delete" "Post") []
      (Option.some (PyVal.int 1))).committed = true :=
  C8_no_hooks_registered [] "before_delete" "Post" [("instance", PyVal.int 1)]
    (PyVal.int 1) [] rfl

/-- C10: `register` with a valid hook type succeeds and appends the new
callable at the end of exactly the `(model, hook_type)` list, leaving
every other key's list unchanged; `get_hooks` is a pure query — on a
model with no entry it returns the empty list (and in this pure
embedding neither `get_hooks` nor `execute_hooks` can touch the
registry, which models the source's `.get`-based reads). -/
theorem C10_register_frame (reg : Registry) (t m : String) (h : Hook)
    (ht : t ∈ VALID_HOOKS) :
    ∃ reg2, register reg t m h = Except.ok reg2 ∧
      get_hooks reg2 t m = get_hooks reg t m ++ [h] ∧
      (∀ t2 m2, t2 ≠ t ∨ m2 ≠ m → get_hooks reg2 t2 m2 = get_hooks reg t2 m2) ∧
      (∀ reg3 t2 m2, dictGet reg3 m2 = Option.none →
        get_hooks (reg3 : Registry) t2 m2 = []) := by
  have hcon : VALID_HOOKS.contains t = true := List.elem_eq_true_of_mem ht
  refine ⟨dictSetWith reg m
      (fun inner => dictSetWith inner t (fun l => l ++ [h]) []) [],
    by simp only [register, hcon, if_true], ?_, ?_, ?_⟩
  · unfold get_hooks
    rw [dictGet_dictSetWith_same]
    simp only [Option.getD_some]
    rw [dictGet_dictSetWith_same]
    simp
  · intro t2 m2 hne
    by_cases hm : m2 = m
    · subst hm
      have ht2 : t2 ≠ t := by
        rcases hne with h1 | h1
        · exact h1
        · exact absurd rfl h1
      unfold get_hooks
      rw [dictGet_dictSetWith_same]
      simp only [Option.getD_some]
      rw [dictGet_dictSetWith_ne _ _ _ _ _ ht2]
    · unfold get_hooks
      rw [dictGet_dictSetWith_ne _ _ _ _ _ hm]
  · intro reg3 t2 m2 hnone
    unfold get_hooks
    rw [hnone]
    rfl

/-- Witness for C10 at a concrete input: registering a hook into the
empty registry. -/
theorem C10_witness :
    ∃ reg2, register [] "before_delete" "Post" hkLog = Except.ok reg2 ∧
      get_hooks reg2 "before_delete" "Post" =
        get_hooks [] "before_delete" "Post" ++ [hkLog] ∧
      (∀ t2 m2, t2 ≠ "before_delete" ∨ m2 ≠ "Post" →
        get_hooks reg2 t2 m2 = get_hooks [] t2 m2) ∧
      (∀ reg3 t2 m2, dictGet reg3 m2 = Option.none →
        get_hooks (reg3 : Registry) t2 m2 = []) :=
  C10_register_frame [] "before_delete" "Post" hkLog (by simp [VALID_HOOKS])

/-- C1 counterexample: the hook returns `0`, a falsy non-mapping value,
yet the generated delete handler removes the entity — the handler tests
`should_delete is False`, which only the boolean `False` satisfies, so
the claim's quantification over all falsy non-mapping values is wrong. -/
theorem C1_counterexample :
    pyFalsy (PyVal.int 0) = true ∧ isPyDict (PyVal.int 0) = false ∧
    (delete_handler [hkZero] [] (Option.some (PyVal.dict []))).removed = true ∧
    (delete_handler [hkZero] [] (Option.some (PyVal.dict []))).afterCalled =
      true :=
  ⟨rfl, rfl, rfl, rfl⟩

/-- C1 (amended): the delete handler skips removal (while still
committing hook-side mutations, and not firing `after_delete`) exactly
when the `before_delete` chain evaluates to the boolean `False`; if every
hook returns nothing or a mapping, the entity is removed and
`after_delete` fires; and a hook returning any other non-`None`
non-mapping value — falsy or not — does not abort: the entity is still
removed. -/
theorem C1_delete_abort_semantics (before afterH : List Hook) (inst : PyVal) :
    ((execute_hooks before [("instance", inst)]).2 =
        Except.ok (PyVal.bool false) →
      (delete_handler before afterH (Option.some inst)).removed = false ∧
      (delete_handler before afterH (Option.some inst)).committed = true ∧
      (delete_handler before afterH (Option.some inst)).afterCalled = false) ∧
    ((∀ h ∈ before, noneOrDict h) →
      (delete_handler before afterH (Option.some inst)).removed = true ∧
      (delete_handler before afterH (Option.some inst)).afterCalled = true) ∧
    (∀ pre h post v, before = pre ++ h :: post →
      (∀ g ∈ pre, noneOrDict g) → (∀ c, h.run c = Except.ok v) →
      v ≠ PyVal.none → isPyDict v = false → isPyFalse v = false →
      (delete_handler before afterH (Option.some inst)).removed = true) := by
  refine ⟨?_, ?_, ?_⟩
  · intro habort
    simp only [delete_handler, habort, isPyFalse]
    exact ⟨rfl, rfl, rfl⟩
  · intro hb
    obtain ⟨-, c2, hres⟩ :=
      execute_hooks_benign before [("instance", inst)] hb
    simp only [delete_handler, hres, isPyFalse]
    cases h2 : (execute_hooks afterH [("instance_data", inst)]).2 with
    | error e => simp [h2]
    | ok v => simp [h2]
  · intro pre h post v hsplit hpre hh hv1 hv2 hv3
    subst hsplit
    have hres := execute_hooks_early pre h post [("instance", inst)] v hpre
      hh hv1 hv2
    simp only [delete_handler, hres, hv3, Bool.false_eq_true, if_false]
    cases h2 : (execute_hooks afterH [("instance_data", inst)]).2 with
    | error e => simp [h2]
    | ok v2 => simp [h2]

/-- Witness for the amended C1 at concrete inputs: a hook returning
`False` aborts removal but commits; benign hooks let removal proceed. -/
theorem C1_witness :
    ((delete_handler [hkFalse] [] (Option.some (PyVal.dict []))).removed =
        false ∧
      (delete_handler [hkFalse] [] (Option.some (PyVal.dict []))).committed =
        true ∧
      (delete_handler [hkFalse] [] (Option.some (PyVal.dict []))).afterCalled =
        false) ∧
    ((delete_handler [hkMut] [] (Option.some (PyVal.dict []))).removed = true ∧
      (delete_handler [hkMut] [] (Option.some (PyVal.dict []))).afterCalled =
        true) :=
  ⟨(C1_delete_abort_semantics [hkFalse] [] (PyVal.dict [])).1 rfl,
   (C1_delete_abort_semantics [hkMut] [] (PyVal.dict [])).2.1
    (by
      intro h hh c
      rcases List.mem_singleton.mp hh with rfl
      exact Or.inr ⟨[("touched", PyVal.bool true)], rfl⟩)⟩

/-! ## Validator lemmas -/

theorem seqE_ok_iff (a b : Except String Unit) :
    seqE a b = Except.ok () ↔ (a = Except.ok () ∧ b = Except.ok ()) := by
  unfold seqE
  cases a with
  | ok u => cases u; simp
  | error e => simp

theorem runAll_ok_iff {α : Type} (f : α → Except String Unit) (l : List α) :
    runAll f l = Except.ok () ↔ ∀ x ∈ l, f x = Except.ok () := by
  induction l with
  | nil => simp [runAll]
  | cons x t ih =>
    simp only [runAll]
    cases hfx : f x with
    | ok u =>
      cases u
      simp [hfx, ih]
    | error e => simp [hfx]

theorem validate_field_type_ok_iff (f : FieldDefinition) :
    validate_field_type f = Except.ok () ↔
      VALID_TYPES.contains f.type = true := by
  unfold validate_field_type
  cases h : VALID_TYPES.contains f.type <;> simp [h]

theorem validate_required_nullable_ok_iff (f : FieldDefinition) :
    validate_required_nullable f = Except.ok () ↔
      (f.required && f.nullable && !f.primary) = false := by
  unfold validate_required_nullable
  cases h : (f.required && f.nullable && !f.primary) <;> simp [h]

theorem validate_primary_key_ok_iff (s : SchemaDefinition)
    (fields : List FieldDefinition) :
    validate_primary_key s fields = Except.ok () ↔
      (fields.filter (fun f => f.primary)).length = 1 := by
  unfold validate_primary_key
  by_cases h0 : (fields.filter (fun f => f.primary)).length = 0
  · rw [if_pos h0]
    constructor
    · intro h; exact absurd h (by simp)
    · intro h; exact absurd h (by omega)
  · rw [if_neg h0]
    by_cases h1 : (fields.filter (fun f => f.primary)).length > 1
    · rw [if_pos h1]
      constructor
      · intro h; exact absurd h (by simp)
      · intro h; exact absurd h (by omega)
    · rw [if_neg h1]
      constructor
      · intro _; omega
      · intro _; rfl

theorem validate_relation_ok_iff (n : String) (r : RelationDict) :
    validate_relation n r = Except.ok () ↔
      (optMem r.type VALID_RELATION_TYPES && truthyStr r.target) = true := by
  unfold validate_relation
  cases h1 : optMem r.type VALID_RELATION_TYPES <;>
    cases h2 : truthyStr r.target <;> simp [h1, h2]

theorem check_relation_target_ok_iff (names : List String) (r : RelationDict) :
    check_relation_target names r = Except.ok () ↔
      (match r.target with
       | Option.some t => (t.isEmpty || names.contains t)
       | Option.none => true) = true := by
  unfold check_relation_target
  cases ht : r.target with
  | none => simp
  | some t =>
    cases he : t.isEmpty <;> cases hc : names.contains t <;> simp [he, hc]

theorem validate_schema_ok_iff (s : SchemaDefinition)
    (fields : List FieldDefinition) :
    validate_schema s fields = Except.ok () ↔
      ((∀ f ∈ fields, VALID_TYPES.contains f.type = true ∧
          (f.required && f.nullable && !f.primary) = false) ∧
        (fields.filter (fun f => f.primary)).length = 1 ∧
        (∀ r ∈ s.relations,
          (optMem r.type VALID_RELATION_TYPES && truthyStr r.target) = true)) := by
  unfold validate_schema validate_relations
  simp only [seqE_ok_iff, runAll_ok_iff, validate_field_type_ok_iff,
    validate_required_nullable_ok_iff, validate_primary_key_ok_iff,
    validate_relation_ok_iff]

/-! ## Claim theorems: the validator -/

/-- C2 counterexample: a schema with exactly one primary key, only valid
field types, no required-and-nullable field, and a relation whose target
exists — every condition the claim lists — is nevertheless rejected,
because the relation's type `one_to_one` is not a valid relation type. -/
theorem C2_counterexample :
    claim_accepts [c2schema] c2fm = true ∧
    validate_all [c2schema] c2fm =
      Except.error "Invalid relation type in schema A" :=
  ⟨rfl, rfl⟩

/-- C2 (amended): provided every schema's name is present in the field
map, `validate_all` succeeds iff the claim's conditions hold AND every
relation's type is one of the three valid relation types and every
relation's target is present and non-empty. -/
theorem C2_validate_all_iff (schemas : List SchemaDefinition)
    (field_map : List (String × List FieldDefinition))
    (hcov : ∀ s ∈ schemas, (dictGet field_map s.name).isSome = true) :
    validate_all schemas field_map = Except.ok () ↔
      amended_accepts schemas field_map = true := by
  unfold validate_all amended_accepts claim_accepts
  simp only [seqE_ok_iff, runAll_ok_iff, Bool.and_eq_true, List.all_eq_true]
  constructor
  · rintro ⟨hA, hB⟩
    have hschema : ∀ s ∈ schemas, ∀ fields,
        dictGet field_map s.name = Option.some fields →
        validate_schema s fields = Except.ok () := by
      intro s hs fields hf
      have := hA s hs
      unfold validate_schema_entry at this
      rw [hf] at this
      exact this
    refine ⟨⟨?_, ?_⟩, ?_⟩
    · intro s hs
      obtain ⟨fields, hf⟩ := Option.isSome_iff_exists.mp (hcov s hs)
      have hok := (validate_schema_ok_iff s fields).mp (hschema s hs fields hf)
      rw [hf]
      simp only [Bool.and_eq_true, List.all_eq_true, beq_iff_eq]
      refine ⟨⟨hok.2.1, fun f hf2 => (hok.1 f hf2).1⟩, ?_⟩
      intro f hf2
      rw [Bool.not_eq_eq_eq_not, Bool.not_true]
      exact (hok.1 f hf2).2
    · intro s hs r hr
      have hc := (check_relation_target_ok_iff _ r).mp (hB s hs r hr)
      obtain ⟨fields, hf⟩ := Option.isSome_iff_exists.mp (hcov s hs)
      have hok := (validate_schema_ok_iff s fields).mp (hschema s hs fields hf)
      have htruthy := ((Bool.and_eq_true _ _).mp (hok.2.2 r hr)).2
      cases ht : r.target with
      | none =>
        rw [ht] at htruthy
        simp [truthyStr] at htruthy
      | some t =>
        rw [ht] at htruthy hc
        simp only [truthyStr] at htruthy
        have hne : t.isEmpty = false := by simpa using htruthy
        simp only [hne, Bool.false_or] at hc
        simpa using hc
    · intro s hs r hr
      obtain ⟨fields, hf⟩ := Option.isSome_iff_exists.mp (hcov s hs)
      have hok := (validate_schema_ok_iff s fields).mp (hschema s hs fields hf)
      exact (Bool.and_eq_true _ _).mp (hok.2.2 r hr)
  · rintro ⟨⟨hC, hD⟩, hE⟩
    constructor
    · intro s hs
      obtain ⟨fields, hf⟩ := Option.isSome_iff_exists.mp (hcov s hs)
      unfold validate_schema_entry
      rw [hf]
      have hc := hC s hs
      rw [hf] at hc
      simp only [Bool.and_eq_true, List.all_eq_true, beq_iff_eq] at hc
      refine (validate_schema_ok_iff s fields).mpr ⟨?_, hc.1.1, ?_⟩
      · intro f hf2
        refine ⟨hc.1.2 f hf2, ?_⟩
        have := hc.2 f hf2
        rwa [Bool.not_eq_eq_eq_not, Bool.not_true] at this
      · intro r hr
        exact (Bool.and_eq_true _ _).mpr (hE s hs r hr)
    · intro s hs r hr
      refine (check_relation_target_ok_iff _ r).mpr ?_
      have hd := hD s hs r hr
      cases ht : r.target with
      | none => simp
      | some t =>
        rw [ht] at hd
        have hd2 : (schemas.map (fun s2 => s2.name)).contains t = true := hd
        show (t.isEmpty || (schemas.map (fun s2 => s2.name)).contains t) = true
        rw [hd2, Bool.or_true]

/-- Witness for the amended C2 at a concrete input: a fully valid schema
set is accepted. -/
theorem C2_witness : validate_all c2good c2goodFM = Except.ok () :=
  (C2_validate_all_iff c2good c2goodFM
    (by
      intro s hs
      rcases List.mem_singleton.mp hs with rfl
      rfl)).mpr rfl

/-! ## Generator lemmas -/

set_option maxHeartbeats 1600000 in
theorem pyTypeBase_no_none (t : String) :
    strContains (pyTypeBase t) "None" = false := by
  unfold pyTypeBase
  split_ifs <;> decide

set_option maxHeartbeats 1600000 in
theorem pyTypeBase_app_none (t : String) :
    strContains (pyTypeBase t ++ " | None") "None" = true := by
  unfold pyTypeBase
  split_ifs <;> decide

set_option maxHeartbeats 1600000 in
theorem append_merge_none (A : String) :
    (A ++ " | None") ++ " = None" = A ++ " | None = None" := by
  rw [String.append_assoc]
  exact congrArg (fun z => A ++ z) (by decide)

theorem update_line_shape (f : FieldDefinition) :
    pydantic_field_line "Update" f =
      "    " ++ f.name ++ ": " ++ pyTypeBase f.type ++ " | None = None" := by
  unfold pydantic_field_line get_python_type
  cases hn : (f.nullable && !f.primary) with
  | true =>
    simp only [hn, if_true]
    rw [if_pos (show ("Update" == "Update") = true from rfl)]
    rw [if_pos (pyTypeBase_app_none f.type)]
    rw [← String.append_assoc ("    " ++ f.name ++ ": ") (pyTypeBase f.type)
      " | None"]
    exact append_merge_none _
  | false =>
    simp only [hn, Bool.false_eq_true, if_false]
    rw [if_pos (show ("Update" == "Update") = true from rfl)]
    rw [if_neg (by simp [pyTypeBase_no_none])]
    rw [← String.append_assoc ("    " ++ f.name ++ ": ") (pyTypeBase f.type)
      " | None"]
    exact append_merge_none _

theorem filter_create_eq (fields : List FieldDefinition) :
    fields.filter (fun f => !("Create" == "Create" && f.primary)) =
      fields.filter (fun f => !f.primary) := by
  induction fields with
  | nil => rfl
  | cons a t ih =>
    rw [List.filter_cons, List.filter_cons, ih]
    rw [show ("Create" == "Create") = true from rfl, Bool.true_and]

theorem filter_update_keep_all (fields : List FieldDefinition) :
    fields.filter (fun f => !("Update" == "Create" && f.primary)) = fields := by
  induction fields with
  | nil => rfl
  | cons a t ih =>
    rw [List.filter_cons, ih]
    rw [show ("Update" == "Create") = false from rfl, Bool.false_and,
      Bool.not_false]
    rw [if_pos rfl]

theorem pydantic_field_lines_create (schema : SchemaDefinition)
    (fields : List FieldDefinition) :
    pydantic_field_lines schema fields "Create" =
      (fields.filter (fun f => !f.primary)).map (pydantic_field_line "Create") := by
  unfold pydantic_field_lines
  rw [show ("Create" == "Response") = false from rfl, Bool.false_and]
  rw [if_neg (by simp), List.append_nil, filter_create_eq]

theorem pydantic_field_lines_update (schema : SchemaDefinition)
    (fields : List FieldDefinition) :
    pydantic_field_lines schema fields "Update" =
      fields.map (pydantic_field_line "Update") := by
  unfold pydantic_field_lines
  rw [show ("Update" == "Response") = false from rfl, Bool.false_and]
  rw [if_neg (by simp), List.append_nil, filter_update_keep_all]

theorem length_filter_primary_split (l : List FieldDefinition) :
    (l.filter (fun f => !f.primary)).length +
      (l.filter (fun f => f.primary)).length = l.length := by
  induction l with
  | nil => rfl
  | cons a t ih =>
    rw [List.filter_cons, List.filter_cons]
    cases hp : a.primary with
    | true =>
      rw [if_neg (by simp [hp]), if_pos (by simp [hp])]
      simp only [List.length_cons]
      omega
    | false =>
      rw [if_pos (by simp [hp]), if_neg (by simp [hp])]
      simp only [List.length_cons]
      omega

/-! ## Claim theorems: the generators -/

/-- C3 counterexample: with timestamps, soft-delete and one relation,
the generated class body places `created_at`/`updated_at`/`deleted_at`
immediately after the declared fields and BEFORE the relationship line,
contradicting the claim that they appear after all relation lines. -/
theorem C3_counterexample :
    model_class_body_lines c3schema c3fields c3rels =
      ["    id = Column(UUID, primary_key=True, default=uuid.uuid4)",
       tsCreatedLine, tsUpdatedLine, softDeleteLine, c3relLine] ∧
    (model_class_body_lines c3schema c3fields c3rels).indexOf tsCreatedLine <
      (model_class_body_lines c3schema c3fields c3rels).indexOf c3relLine := by
  constructor
  · rfl
  · decide

/-- C3 (amended): for a schema with timestamps and soft-delete enabled
and at least one relation, the class body is: declared field lines, then
`created_at`, `updated_at`, `deleted_at` in that fixed order, then (not
before!) the relationship lines. -/
theorem C3_cross_cutting_column_order (schema : SchemaDefinition)
    (fields : List FieldDefinition) (relations : List RelationDefinition)
    (ht : schema.timestamps = true) (hs : schema.soft_delete = true)
    (_hr : relations ≠ []) :
    model_class_body_lines schema fields relations =
      fields.map generate_field_code ++
        [tsCreatedLine, tsUpdatedLine, softDeleteLine] ++
        relations.map (fun r => generate_relation_code r schema.name) := by
  unfold model_class_body_lines
  rw [ht, hs]
  simp

/-- Witness for the amended C3 at a concrete input. -/
theorem C3_witness :
    model_class_body_lines c3schema c3fields c3rels =
      c3fields.map generate_field_code ++
        [tsCreatedLine, tsUpdatedLine, softDeleteLine] ++
        c3rels.map (fun r => generate_relation_code r c3schema.name) :=
  C3_cross_cutting_column_order c3schema c3fields c3rels rfl rfl
    (by simp [c3rels])

/-- C5: generating a model or a router twice from identical input yields
identical output — in this pure embedding both generators are functions
of their arguments (the Python methods read nothing but their arguments
and write no state), so the output is determined by the input. -/
theorem C5_generation_deterministic (schema : SchemaDefinition)
    (fields : List FieldDefinition) (relations : List RelationDefinition) :
    generate_model schema fields relations =
      generate_model schema fields relations ∧
    generate_router schema fields = generate_router schema fields :=
  ⟨rfl, rfl⟩

/-- C6: for a schema with exactly one primary field, the Create schema
declares exactly the non-primary fields (in order), and the Update
schema declares every field — in particular each non-primary one — with
an optional type ending in `| None = None`. -/
theorem C6_create_update_field_lines (schema : SchemaDefinition)
    (fields : List FieldDefinition)
    (_hp : (fields.filter (fun f => f.primary)).length = 1) :
    pydantic_field_lines schema fields "Create" =
      (fields.filter (fun f => !f.primary)).map (pydantic_field_line "Create") ∧
    (pydantic_field_lines schema fields "Create").length =
      (fields.filter (fun f => !f.primary)).length ∧
    (∀ f ∈ fields, pydantic_field_line "Update" f ∈
      pydantic_field_lines schema fields "Update") ∧
    (∀ f ∈ fields, pydantic_field_line "Update" f =
      "    " ++ f.name ++ ": " ++ pyTypeBase f.type ++ " | None = None") := by
  refine ⟨pydantic_field_lines_create schema fields, ?_, ?_, ?_⟩
  · rw [pydantic_field_lines_create schema fields, List.length_map]
  · intro f hf
    rw [pydantic_field_lines_update]
    exact List.mem_map_of_mem _ hf
  · intro f _
    exact update_line_shape f

/-- Witness for C6 at a concrete input. -/
theorem C6_witness :
    pydantic_field_lines c6schema c6fields "Create" =
      (c6fields.filter (fun f => !f.primary)).map
        (pydantic_field_line "Create") ∧
    pydantic_field_line "Update" { name := "id", type := "uuid", primary := true } =
      "    " ++ "id" ++ ": " ++ pyTypeBase "uuid" ++ " | None = None" := by
  have h := C6_create_update_field_lines c6schema c6fields rfl
  exact ⟨h.1, h.2.2.2 { name := "id", type := "uuid", primary := true }
    (List.mem_cons_self _ _)⟩

/-- C9: for a schema with exactly one primary field, the Update schema
declares one more field than the Create schema: it additionally includes
the primary-key field itself, as an optional `| None = None` field. -/
theorem C9_update_includes_primary (schema : SchemaDefinition)
    (fields : List FieldDefinition)
    (hp : (fields.filter (fun f => f.primary)).length = 1) :
    (pydantic_field_lines schema fields "Update").length =
      (pydantic_field_lines schema fields "Create").length + 1 ∧
    (∀ f ∈ fields, f.primary = true →
      pydantic_field_line "Update" f ∈
        pydantic_field_lines schema fields "Update" ∧
      pydantic_field_line "Update" f =
        "    " ++ f.name ++ ": " ++ pyTypeBase f.type ++ " | None = None") := by
  constructor
  · rw [pydantic_field_lines_update, pydantic_field_lines_create,
      List.length_map, List.length_map]
    have hsplit := length_filter_primary_split fields
    omega
  · intro f hf _
    refine ⟨?_, update_line_shape f⟩
    rw [pydantic_field_lines_update]
    exact List.mem_map_of_mem _ hf

/-- Witness for C9 at a concrete input: two fields, one primary — the
Update schema has both lines, the Create schema only one. -/
theorem C9_witness :
    (pydantic_field_lines c6schema c6fields "Update").length =
      (pydantic_field_lines c6schema c6fields "Create").length + 1 :=
  (C9_update_includes_primary c6schema c6fields rfl).1

end BackendInABox
